import Mathlib

/-!
Verification development for the Azure-Agent repository (src/agent.py and
src/emotion_tts.py).  The Python functions `build_ssml`, `analyze_emotion`,
`detect_emotion_request`, `speak_ssml` and `handle_user_input` are shallowly
embedded as executable Lean definitions over `List Char`; character classes
model the ASCII behaviour of Python's `re` module (`\w` = `[A-Za-z0-9_]`,
`\s` = `[ \t\n\r\x0b\x0c]`), which covers every string the claims mention.
The VADER sentiment scorer is external to the repository, so the compound
polarity is passed as an abstract rational parameter.
-/

/-- Convert a string literal to the character list the embedding works on. -/
def chars (s : String) : List Char := s.toList

/-- Boolean prefix test on character lists (Python `str.startswith` as used
implicitly by regex literal matching). -/
def begins : List Char → List Char → Bool
  | [], _ => true
  | _ :: _, [] => false
  | a :: p, b :: s => a = b && begins p s

/-! ### The span regex of `build_ssml`

`build_ssml` scans its input with `re.finditer(r'\[(.*?)\](.*?)\[/\1\]', text,
re.DOTALL)`.  The functions below reproduce the engine's search order exactly:
leftmost start position first, then the shortest group 1, then the shortest
group 2. -/

/-- The closing delimiter `[/TAG]` demanded by the backreference `\[/\1\]`. -/
def closeTag (g1 : List Char) : List Char := '[' :: '/' :: (g1 ++ [']'])

/-- Search for the shortest group 2 followed by `[/g1]`.  `acc` holds the
(reversed) characters already committed to group 2. -/
def findG2 (g1 : List Char) : List Char → List Char → Option (List Char × List Char)
  | acc, s =>
    if begins (closeTag g1) s then some (acc.reverse, s.drop (closeTag g1).length)
    else
      match s with
      | [] => none
      | c :: r => findG2 g1 (c :: acc) r

/-- Enumerate group-1 candidates in increasing length (the non-greedy `(.*?)`
backtracking order): each time a `]` is reached the prefix so far is tried as
the tag, and on failure the `]` is absorbed into the tag. -/
def findG1Aux : List Char → List Char → Option (List Char × List Char × List Char)
  | _, [] => none
  | g1rev, c :: t =>
    if c = ']' then
      match findG2 g1rev.reverse [] t with
      | some (g2, after) => some (g1rev.reverse, g2, after)
      | none => findG1Aux (c :: g1rev) t
    else findG1Aux (c :: g1rev) t

/-- Try to match the span pattern anchored at the head of `s`. -/
def matchHere : List Char → Option (List Char × List Char × List Char)
  | [] => none
  | c :: t => if c = '[' then findG1Aux [] t else none

/-- Leftmost match of the span pattern: returns the unmatched text before the
match, group 1 (the tag), group 2 (the span content) and the text after the
closing delimiter. -/
def findMatch : List Char → Option (List Char × List Char × List Char × List Char)
  | [] => none
  | c :: r =>
    match matchHere (c :: r) with
    | some (g1, g2, after) => some ([], g1, g2, after)
    | none =>
      match findMatch r with
      | some (pre, g1, g2, after) => some (c :: pre, g1, g2, after)
      | none => none

/-! ### Segment assembly of `build_ssml`

`build_ssml` walks the matches, emitting a DEFAULT-styled express-as element
for any text before a match, then a styled element for the span itself (tag
looked up case-insensitively in `emotion_to_style`, falling back to DEFAULT),
and finally a DEFAULT element for trailing text if non-empty.  Each element is
modelled as a `Segment`; the style degree is kept in tenths (1.0 ↦ 10,
1.5 ↦ 15, …) to avoid floating point. -/

/-- Python `emotion_text.split('\n\n', 1)`: locate the first double newline
and return the text after it, if any. -/
def splitNN : List Char → Option (List Char)
  | [] => none
  | '\n' :: '\n' :: t => some t
  | _ :: t => splitNN t

/-- The per-span stripping in `build_ssml`: if the content contains a double
newline, discard everything up to and including its first occurrence. -/
def stripNN (s : List Char) : List Char := (splitNN s).getD s

/-- One emitted express-as element: resolved style name, style degree in
tenths, and the literal text content. -/
structure Segment where
  style : String
  degree : Nat
  text : List Char
deriving DecidableEq, Repr

/-- The `emotion_to_style` table of `build_ssml` (degrees in tenths). -/
def emotion_to_style : List (String × String × Nat) :=
  [("DEFAULT", "friendly", 10), ("ANGRY", "angry", 15), ("SAD", "sad", 10),
   ("CHEERFUL", "cheerful", 10), ("EXCITED", "excited", 15),
   ("EMPATHETIC", "empathetic", 10), ("FRIENDLY", "friendly", 10),
   ("DELIGHTFUL", "cheerful", 13), ("JOYFUL", "cheerful", 20),
   ("LAUGHING", "cheerful", 20)]

/-- `emotion_to_style['DEFAULT']`. -/
def defaultProfile : String × Nat :=
  (List.lookup "DEFAULT" emotion_to_style).getD ("friendly", 10)

/-- ASCII uppercasing, modelling Python `str.upper()` on the tag. -/
def upperChars (s : List Char) : List Char := s.map Char.toUpper

/-- `emotion_to_style.get(emotion_tag.upper(), emotion_to_style['DEFAULT'])`. -/
def lookupStyle (tag : List Char) : String × Nat :=
  (List.lookup (String.mk (upperChars tag)) emotion_to_style).getD defaultProfile

/-- The match loop of `build_ssml`, fuelled for structural recursion; each
recursive step consumes the whole matched span, so `text.length + 1` fuel is
always sufficient (`findMatch_after_lt`). -/
def buildSegs : Nat → List Char → List Segment
  | 0, _ => []
  | fuel + 1, text =>
    match findMatch text with
    | none => if text.isEmpty then [] else [⟨defaultProfile.1, defaultProfile.2, text⟩]
    | some (pre, g1, g2, after) =>
      (if pre.isEmpty then [] else [⟨defaultProfile.1, defaultProfile.2, pre⟩]) ++
      (⟨(lookupStyle g1).1, (lookupStyle g1).2, stripNN g2⟩ :: buildSegs fuel after)

/-- The ordered express-as elements emitted by `build_ssml text` (the fixed
speak/voice/prosody shell around them carries no text content). -/
def build_ssml_segments (text : List Char) : List Segment :=
  buildSegs (text.length + 1) text

/-- Concatenated text content of a sequence of emitted elements. -/
def concatTexts (l : List Segment) : List Char := (l.map Segment.text).flatten

/-- A matched span together with the unmatched text that precedes it:
the decomposition certificate used by the round-trip theorem. -/
structure RawSpan where
  pre : List Char
  tag : List Char
  content : List Char

/-- The exact input characters that give rise to a span: the preceding text,
then `[tag]content[/tag]`. -/
def RawSpan.encode (r : RawSpan) : List Char :=
  r.pre ++ ('[' :: (r.tag ++ (']' :: (r.content ++ closeTag r.tag))))

/-- The text a span contributes to the emitted elements: the preceding text
and the double-newline-stripped content. -/
def RawSpan.plain (r : RawSpan) : List Char := r.pre ++ stripNN r.content

/-- Re-assembled input from a span decomposition. -/
def encodeAll (l : List RawSpan) : List Char := (l.map RawSpan.encode).flatten

/-- Total emitted text of a span decomposition. -/
def plainAll (l : List RawSpan) : List Char := (l.map RawSpan.plain).flatten

/-! ### `analyze_emotion`

Whole-word, case-insensitive keyword counting followed by a sentiment
fallback.  `re.findall(r'\b' + kw + r'\b', text.lower())` is modelled by a
left-to-right scan that counts matches and resumes after each one, exactly as
`findall` does.  The VADER compound score is an abstract rational parameter
`compound` (the scorer is an external library, deterministic per text). -/

/-- Python `\w` for ASCII text: `[A-Za-z0-9_]`. -/
def isWordChar (c : Char) : Bool := c.isAlphanum || c = '_'

/-- Python `\s` for ASCII text. -/
def isSpaceChar (c : Char) : Bool :=
  c = ' ' || c = '\t' || c = '\n' || c = '\r' || c = '\x0b' || c = '\x0c'

/-- A `\b` boundary next to a word character of the keyword: satisfied at the
ends of the text or against a non-word character. -/
def boundaryOk : Option Char → Bool
  | none => true
  | some c => !isWordChar c

/-- Does `kw` match at the head of `s`, with `\b` boundaries on both sides?
`prev` is the character just before `s` (none at the start of the text). -/
def wordHit (prev : Option Char) (kw s : List Char) : Bool :=
  begins kw s && boundaryOk prev && boundaryOk (s.drop kw.length).head?

/-- `len(re.findall(r'\b' + kw + r'\b', s))`: fuelled scan, resuming after
each match like `findall` (fuel `s.length` is always enough because every
step consumes at least one character). -/
def countOccAux (kw : List Char) : Nat → Option Char → List Char → Nat
  | 0, _, _ => 0
  | fuel + 1, prev, s =>
    match s with
    | [] => 0
    | c :: r =>
      if wordHit prev kw s then 1 + countOccAux kw fuel kw.getLast? (s.drop kw.length)
      else countOccAux kw fuel (some c) r

/-- Number of whole-word occurrences of `kw` in `s`. -/
def countOcc (kw s : List Char) : Nat := countOccAux kw s.length none s

/-- The `emotion_keywords` table of `analyze_emotion`, in source order. -/
def emotion_keywords : List (String × List String) :=
  [("angry", ["angry", "mad", "furious", "upset", "annoyed"]),
   ("sad", ["sad", "unhappy", "depressed"]),
   ("cheerful", ["cheerful", "happy", "glad", "delighted"]),
   ("excited", ["excited", "thrilled", "eager"]),
   ("empathetic", ["understand", "feel for you", "compassion"]),
   ("friendly", ["friendly", "kind", "nice"]),
   ("delightful", ["delightful", "warm", "welcoming"]),
   ("joyful", ["joyful", "ecstatic"])]

/-- The per-label `emotion_scores` computed over the lower-cased text. -/
def emotionScores (t : List Char) : List (String × Nat) :=
  emotion_keywords.map (fun p => (p.1, (p.2.map (fun kw => countOcc (chars kw) t)).sum))

/-- `max(emotion_scores.values())` (the table is non-empty, so the 0 seed is
never the decisive value when some count is positive). -/
def maxScore (l : List (String × Nat)) : Nat := (l.map (fun p => p.2)).foldr Nat.max 0

/-- `max(emotion_scores, key=emotion_scores.get)`: first entry with the
maximal count, in table order (Python `max` keeps the earliest maximum). -/
def argmaxFirst : List (String × Nat) → String × Nat
  | [] => ("default", 0)
  | p :: rest => if (argmaxFirst rest).2 > p.2 then argmaxFirst rest else p

/-- `analyze_emotion(text)` with the VADER compound polarity supplied as the
abstract parameter `compound`. -/
def analyze_emotion (compound : ℚ) (text : List Char) : String :=
  let scores := emotionScores (text.map Char.toLower)
  if 0 < maxScore scores then (argmaxFirst scores).1
  else if mkRat 1 2 ≤ compound then "cheerful"
  else if compound ≤ -(mkRat 1 2) then "sad"
  else if 0 < compound then "friendly"
  else "default"

/-- The EmotionLabel enumerated set of the specification (§6). -/
def emotionLabelSet : List String :=
  ["angry", "sad", "cheerful", "excited", "empathetic", "friendly", "shouting",
   "terrified", "unfriendly", "newscast", "narration", "poetry", "curious",
   "confused", "joyful", "delightful", "default"]

/-! ### `detect_emotion_request`

The four regex patterns of `detect_emotion_request` are embedded with
backtracking matcher combinators in continuation-passing style, reproducing
the engine's priority order: alternatives left to right, optional groups
greedy, `\s+` and `\w+` greedy with backtracking, search positions left to
right.  Each pattern has exactly one capture group `(\w+)`, so a pattern is a
non-capturing prelude, the greedy captured word, and a trailing part; the
continuation finally returns the captured word. -/

/-- A matcher consumes a prefix of the text and passes the remainder to its
continuation; `none` propagates failure so earlier choice points backtrack. -/
def Pat : Type := List Char → (List Char → Option (List Char)) → Option (List Char)

/-- Sequencing. -/
def mseq (a b : Pat) : Pat := fun s k => a s (fun r => b r k)

/-- Prioritized alternation (`x|y` tries `x` first). -/
def malt (a b : Pat) : Pat := fun s k => (a s k).orElse (fun _ => b s k)

/-- Greedy option (`x?` tries `x` first, then the empty match). -/
def mopt (a : Pat) : Pat := fun s k => (a s k).orElse (fun _ => k s)

/-- Literal text. -/
def mlit (w : String) : Pat := fun s k =>
  if begins w.toList s then k (s.drop w.length) else none

/-- Greedy `c*` for a character class, longest first with backtracking. -/
def mstar (p : Char → Bool) : List Char → (List Char → Option (List Char)) → Option (List Char)
  | [], k => k []
  | c :: r, k => if p c then (mstar p r k).orElse (fun _ => k (c :: r)) else k (c :: r)

/-- Greedy `\s+`. -/
def msp : Pat := fun s k =>
  match s with
  | [] => none
  | c :: r => if isSpaceChar c then mstar isSpaceChar r k else none

/-- Ordered alternation over a list of literals. -/
def malts (ws : List String) : Pat := ws.foldr (fun w acc => malt (mlit w) acc) (fun _ _ => none)

/-- Try the captured `\w+` at lengths `i, i-1, …, 1` (greedy backtracking):
`wmax` is the maximal word run, `rest` the text after it. -/
def capTry (suf : Pat) (wmax rest : List Char) : Nat → Option (List Char)
  | 0 => none
  | i + 1 =>
    (suf (wmax.drop (i + 1) ++ rest) (fun _ => some (wmax.take (i + 1)))).orElse
      (fun _ => capTry suf wmax rest i)

/-- The capture group `(\w+)` followed by the trailing part of the pattern:
used as the final continuation of the pattern's prelude. -/
def capWord (suf : Pat) : List Char → Option (List Char) := fun r =>
  capTry suf (r.takeWhile isWordChar) (r.dropWhile isWordChar) (r.takeWhile isWordChar).length

/-- `re.search`: try the pattern at every start position, leftmost first. -/
def searchPat (pre suf : Pat) : List Char → Option (List Char)
  | [] => pre [] (capWord suf)
  | c :: r => (pre (c :: r) (capWord suf)).orElse (fun _ => searchPat pre suf r)

/-- `(?:talk|speak|respond|reply|chat|sound|be)`. -/
def verbAlts : Pat := malts ["talk", "speak", "respond", "reply", "chat", "sound", "be"]

/-- `(?:\s+to\s+me)?`. -/
def toMeOpt : Pat := mopt (mseq msp (mseq (mlit "to") (mseq msp (mlit "me"))))

/-- `(?:in|with|using|like)?`. -/
def prepOpt : Pat := mopt (malts ["in", "with", "using", "like"])

/-- `(?:an?\s+)?`. -/
def artOpt : Pat := mopt (mseq (malt (mlit "an") (mlit "a")) msp)

/-- `(?:\s+(?:mode|tone|voice|style|emotion|manner|way))` (without `?`). -/
def nounTail : Pat := mseq msp (malts ["mode", "tone", "voice", "style", "emotion", "manner", "way"])

/-- Prelude of pattern 1 (everything before the capture group). -/
def pre1 : Pat := mseq verbAlts (mseq toMeOpt (mseq msp (mseq prepOpt (mseq msp artOpt))))

/-- Trailing part of patterns 1, 2 and 4 after the capture: optional. -/
def suf1 : Pat := mopt nounTail

/-- `(?:can\s+you|could\s+you|will\s+you|would\s+you)`. -/
def modalAlts : Pat :=
  malt (mseq (mlit "can") (mseq msp (mlit "you")))
    (malt (mseq (mlit "could") (mseq msp (mlit "you")))
      (malt (mseq (mlit "will") (mseq msp (mlit "you")))
        (mseq (mlit "would") (mseq msp (mlit "you")))))

/-- Prelude of pattern 2: the modal phrase, optional `please`, then the same
verb phrase as pattern 1. -/
def pre2 : Pat := mseq modalAlts (mseq (mopt (mseq msp (mlit "please"))) (mseq msp pre1))

/-- Prelude of pattern 3: `(?:switch|change|go)(?:\s+to)?\s+(?:an?\s+)?`. -/
def pre3 : Pat := mseq (malts ["switch", "change", "go"]) (mseq (mopt (mseq msp (mlit "to"))) (mseq msp artOpt))

/-- Trailing part of pattern 3: the noun is mandatory. -/
def suf3 : Pat := nounTail

/-- Prelude of pattern 4: `(?:make\s+your\s+voice|use\s+a|try\s+a)(?:\s+more)?\s+`. -/
def pre4 : Pat :=
  mseq (malt (mseq (mlit "make") (mseq msp (mseq (mlit "your") (mseq msp (mlit "voice")))))
          (malt (mseq (mlit "use") (mseq msp (mlit "a")))
            (mseq (mlit "try") (mseq msp (mlit "a")))))
    (mseq (mopt (mseq msp (mlit "more"))) msp)

/-- Trailing part of pattern 4: empty. -/
def suf4 : Pat := fun s k => k s

/-- The `patterns` list of `detect_emotion_request`, in priority order. -/
def patterns : List (Pat × Pat) := [(pre1, suf1), (pre2, suf1), (pre3, suf3), (pre4, suf4)]

/-- The `valid_emotions` list of `detect_emotion_request` (note: no
`default`). -/
def valid_emotions : List (List Char) :=
  [chars "angry", chars "sad", chars "cheerful", chars "excited",
   chars "empathetic", chars "friendly", chars "shouting", chars "terrified",
   chars "unfriendly", chars "newscast", chars "narration", chars "poetry",
   chars "curious", chars "confused", chars "joyful", chars "delightful"]

/-- The `for pattern in patterns` loop: on a match whose captured word is
valid return it, otherwise move on to the next pattern. -/
def detectLoop : List (Pat × Pat) → List Char → Option (List Char)
  | [], _ => none
  | ps :: rest, t =>
    match searchPat ps.1 ps.2 t with
    | some w => if valid_emotions.contains w then some w else detectLoop rest t
    | none => detectLoop rest t

/-- `detect_emotion_request(text)`: patterns are applied to the lower-cased
text; returns the first valid captured word, else `none`. -/
def detect_emotion_request (text : List Char) : Option (List Char) :=
  detectLoop patterns (text.map Char.toLower)

/-! ### `handle_user_input` (agent.py)

The handler is modelled as a pure function of the session's current emotion,
the incoming message content, and an environment fixing the outcomes of the
external calls (native TTS availability and success, data-channel success,
and the conversational model's reply).  Its observable effects are the new
current emotion, the conversation items created, the speech requests issued,
and whether the conversational model was consulted. -/

/-- A speech request issued by the handler. -/
inductive Speech
  | native (t : List Char)
  | channel (t : List Char)
  | customBuilt (taggedText : List Char)
  | customRaw (ssmlText : List Char)
deriving DecidableEq, Repr

/-- Outcomes of the external collaborators used by `handle_user_input`. -/
structure AgentEnv where
  usingNativeTTS : Bool
  nativeOk : Bool
  dataChannelOk : Bool
  reply : List Char
deriving DecidableEq, Repr

/-- Observable result of one `handle_user_input` invocation. -/
structure HandleResult where
  emotion : List Char
  newItems : List (List Char × List Char)
  speech : List Speech
  modelConsulted : Bool
deriving DecidableEq, Repr

/-- Python `str.strip()` (ASCII whitespace). -/
def pyStrip (s : List Char) : List Char :=
  ((s.dropWhile isSpaceChar).reverse.dropWhile isSpaceChar).reverse

/-- The alternatives of `\b(laugh|haha|joke|funny|make me laugh)\b`. -/
def laughWords : List (List Char) :=
  [chars "laugh", chars "haha", chars "joke", chars "funny", chars "make me laugh"]

/-- Does any laugh alternative match at the head of `s` with `\b` boundaries
(`prev` is the preceding character)?  Every alternative starts and ends with
a word character, so `\b` reduces to a non-word (or absent) neighbour. -/
def laughHit (prev : Option Char) (s : List Char) : Bool :=
  laughWords.any (fun w => wordHit prev w s)

/-- Scan for a laugh-word match anywhere in the text (`re.search` is only
used as a boolean test here). -/
def scanLaugh (prev : Option Char) : List Char → Bool
  | [] => laughHit prev []
  | c :: r => laughHit prev (c :: r) || scanLaugh (some c) r

/-- `re.search(r'\b(laugh|haha|joke|funny|make me laugh)\b', user_input.lower())`
as a boolean. -/
def containsLaughWord (s : List Char) : Bool := scanLaugh none (s.map Char.toLower)

/-- `f"I'll now speak in a {requested_emotion} tone."` -/
def ackText (e : List Char) : List Char :=
  chars "I" ++ ['\x27'] ++ chars "ll now speak in a " ++ e ++ chars " tone."

/-- `f"[{emo.upper()}]{t}[/{emo.upper()}]"`. -/
def taggedReply (emo t : List Char) : List Char :=
  '[' :: (upperChars emo ++ (']' :: (t ++ ('[' :: ('/' :: (upperChars emo ++ [']']))))))

/-- The laugh-branch speech request (native TTS, else data channel, else
`speak_ssml("[LAUGHING]laugh[/LAUGHING]")` without going through
`build_ssml`). -/
def laughSpeech (env : AgentEnv) : Speech :=
  if env.usingNativeTTS then Speech.native (chars "haha")
  else if env.dataChannelOk then Speech.channel (chars "haha")
  else Speech.customRaw (chars "[LAUGHING]laugh[/LAUGHING]")

/-- The three-way TTS fallback used for the acknowledgment of an emotion
request. -/
def ackSpeech (env : AgentEnv) (e : List Char) : Speech :=
  if env.usingNativeTTS then Speech.native (ackText e)
  else if env.dataChannelOk then Speech.channel (ackText e)
  else Speech.customBuilt (taggedReply e (ackText e))

/-- The TTS fallback for a model reply: the native path may fail and then
falls through to the data channel and finally to the custom path, which tags
the reply with the session's CURRENT_EMOTION. -/
def replySpeech (env : AgentEnv) (currentEmotion assistant_text : List Char) : Speech :=
  if env.usingNativeTTS then
    (if env.nativeOk then Speech.native assistant_text
     else if env.dataChannelOk then Speech.channel assistant_text
     else Speech.customBuilt (taggedReply currentEmotion assistant_text))
  else if env.dataChannelOk then Speech.channel assistant_text
  else Speech.customBuilt (taggedReply currentEmotion assistant_text)

/-- `handle_user_input(msg)`: laugh short-circuit, then explicit emotion
request, then the conversational-model reply path. -/
def handle_user_input (env : AgentEnv) (currentEmotion content : List Char) : HandleResult :=
  let user_input := pyStrip content
  if containsLaughWord user_input then
    { emotion := currentEmotion, newItems := [], speech := [laughSpeech env],
      modelConsulted := false }
  else
    match detect_emotion_request user_input with
    | some e =>
      { emotion := e, newItems := [(chars "assistant", ackText e)],
        speech := [ackSpeech env e], modelConsulted := false }
    | none =>
      let assistant_text := pyStrip env.reply
      { emotion := currentEmotion, newItems := [(chars "user", user_input)],
        speech := [replySpeech env currentEmotion assistant_text],
        modelConsulted := true }

/-! ### `speak_ssml` (emotion_tts.py)

Exception behaviour is modelled with `Except`: every external call outcome is
a field of `SpeakEnv`, the inner `except (ImportError, AttributeError)`
handlers only catch those two classes, and the outer `except Exception`
swallows everything.  The stream-reading loop between synthesis and playback
can only raise, which is indistinguishable here from the synthesis call
raising, so it is folded into `synthesize`.  The trace records which playback
methods were attempted, in order. -/

/-- Exception classes distinguished by `speak_ssml`. -/
inductive Exn
  | importError
  | attributeError
  | other
deriving DecidableEq, Repr

/-- Outcome of one external call. -/
inductive Outcome
  | ok
  | raise (e : Exn)
deriving DecidableEq, Repr

/-- Playback methods of the fallback chain. -/
inductive Method
  | livekit
  | rtc
  | localSpeaker
deriving DecidableEq, Repr

/-- Environment fixing each external call of `speak_ssml`. -/
structure SpeakEnv where
  synthesize : Outcome
  synthCompleted : Bool
  livekitPlay : Outcome
  rtcPlay : Outcome
  localPlay : Outcome
deriving DecidableEq, Repr

/-- Run an external call as an `Except` computation. -/
def attempt : Outcome → Except Exn Unit
  | Outcome.ok => Except.ok ()
  | Outcome.raise e => Except.error e

/-- The classes caught by the inner handlers. -/
def isImportOrAttr : Exn → Bool
  | Exn.importError => true
  | Exn.attributeError => true
  | Exn.other => false

/-- The playback fallback chain: LiveKit audio, then rtc audio, then the
local speaker; only `ImportError`/`AttributeError` trigger the next method. -/
def playChain (env : SpeakEnv) : Except Exn Unit × List Method :=
  match attempt env.livekitPlay with
  | Except.ok _ => (Except.ok (), [Method.livekit])
  | Except.error e =>
    if isImportOrAttr e then
      match attempt env.rtcPlay with
      | Except.ok _ => (Except.ok (), [Method.livekit, Method.rtc])
      | Except.error e2 =>
        if isImportOrAttr e2 then
          (attempt env.localPlay, [Method.livekit, Method.rtc, Method.localSpeaker])
        else (Except.error e2, [Method.livekit, Method.rtc])
    else (Except.error e, [Method.livekit])

/-- The body of the outer `try`: synthesis (an uncompleted result returns
early after logging), then the playback chain. -/
def speakBody (env : SpeakEnv) : Except Exn Unit × List Method :=
  match attempt env.synthesize with
  | Except.error e => (Except.error e, [])
  | Except.ok _ => if env.synthCompleted = false then (Except.ok (), []) else playChain env

/-- `speak_ssml`: the outer `except Exception` logs and swallows whatever
escapes the body, so the function always returns normally. -/
def speak_ssml (env : SpeakEnv) : Except Exn Unit × List Method :=
  match speakBody env with
  | (Except.ok _, tr) => (Except.ok (), tr)
  | (Except.error _, tr) => (Except.ok (), tr)

/-- The specification's description of the matcher loop, for comparison with
`detect_emotion_request`: the first pattern, in the fixed priority order,
whose search yields a captured word belonging to `validSet` returns that
word; a match with an unrecognized captured word is discarded and matching
continues with the next pattern; otherwise the result is `none`. -/
def detectSpec (validSet : List (List Char)) (text : List Char) : Option (List Char) :=
  patterns.findSome? (fun ps =>
    match searchPat ps.1 ps.2 (text.map Char.toLower) with
    | some w => if validSet.contains w then some w else none
    | none => none)

/-- The spec's EmotionLabel set as character lists (includes `default`). -/
def emotionLabelSetChars : List (List Char) := emotionLabelSet.map chars

/-! ### Lemmas and claim theorems -/

theorem begins_eq : ∀ (p s : List Char), begins p s = true → s = p ++ s.drop p.length := by
  intro p
  induction p with
  | nil => intro s _; simp
  | cons a p ih =>
    intro s h
    cases s with
    | nil => simp [begins] at h
    | cons b s' =>
      simp only [begins, Bool.and_eq_true, decide_eq_true_eq] at h
      obtain ⟨rfl, h2⟩ := h
      have := ih s' h2
      simp [List.drop, this.symm]

theorem findG2_sound (g1 : List Char) :
    ∀ (s acc g2 after : List Char), findG2 g1 acc s = some (g2, after) →
      acc.reverse ++ s = g2 ++ (closeTag g1 ++ after) := by
  intro s
  induction s with
  | nil =>
    intro acc g2 after h
    rw [findG2] at h
    by_cases hb : begins (closeTag g1) [] = true
    · rw [if_pos hb] at h
      have heq := begins_eq _ _ hb
      simp only [Option.some.injEq, Prod.mk.injEq] at h
      obtain ⟨h1, h2⟩ := h
      rw [← h1, ← h2, ← heq]
    · rw [if_neg hb] at h
      exact absurd h (by simp)
  | cons c r ih =>
    intro acc g2 after h
    rw [findG2] at h
    by_cases hb : begins (closeTag g1) (c :: r) = true
    · rw [if_pos hb] at h
      have heq := begins_eq _ _ hb
      simp only [Option.some.injEq, Prod.mk.injEq] at h
      obtain ⟨h1, h2⟩ := h
      rw [← h1, ← h2, ← heq]
    · rw [if_neg hb] at h
      have := ih (c :: acc) g2 after h
      simpa [List.append_assoc] using this

theorem findG1Aux_sound :
    ∀ (t g1rev g1 g2 after : List Char), findG1Aux g1rev t = some (g1, g2, after) →
      g1rev.reverse ++ t = g1 ++ (']' :: (g2 ++ (closeTag g1 ++ after))) := by
  intro t
  induction t with
  | nil => intro g1rev g1 g2 after h; simp [findG1Aux] at h
  | cons c t' ih =>
    intro g1rev g1 g2 after h
    rw [findG1Aux] at h
    by_cases hc : c = ']'
    · rw [if_pos hc] at h
      cases hg : findG2 g1rev.reverse [] t' with
      | some p =>
        rw [hg] at h
        obtain ⟨pg2, pafter⟩ := p
        simp only [Option.some.injEq, Prod.mk.injEq] at h
        obtain ⟨h1, h2, h3⟩ := h
        have hs := findG2_sound g1rev.reverse t' [] pg2 pafter hg
        simp only [List.reverse_nil, List.nil_append] at hs
        rw [← h1, ← h2, ← h3, hc, hs]
      | none =>
        rw [hg] at h
        have := ih (c :: g1rev) g1 g2 after h
        simpa [List.append_assoc] using this
    · rw [if_neg hc] at h
      have := ih (c :: g1rev) g1 g2 after h
      simpa [List.append_assoc] using this

theorem matchHere_sound (s g1 g2 after : List Char) (h : matchHere s = some (g1, g2, after)) :
    s = '[' :: (g1 ++ (']' :: (g2 ++ (closeTag g1 ++ after)))) := by
  cases s with
  | nil => simp [matchHere] at h
  | cons c t =>
    rw [matchHere] at h
    by_cases hc : c = '['
    · rw [if_pos hc] at h
      have := findG1Aux_sound t [] g1 g2 after h
      simp only [List.reverse_nil, List.nil_append] at this
      rw [hc, this]
    · rw [if_neg hc] at h
      exact absurd h (by simp)

theorem findMatch_sound :
    ∀ (s pre g1 g2 after : List Char), findMatch s = some (pre, g1, g2, after) →
      s = pre ++ ('[' :: (g1 ++ (']' :: (g2 ++ (closeTag g1 ++ after))))) := by
  intro s
  induction s with
  | nil => intro pre g1 g2 after h; simp [findMatch] at h
  | cons c r ih =>
    intro pre g1 g2 after h
    rw [findMatch] at h
    cases hm : matchHere (c :: r) with
    | some p =>
      rw [hm] at h
      obtain ⟨pg1, pg2, pafter⟩ := p
      simp only [Option.some.injEq, Prod.mk.injEq] at h
      obtain ⟨h0, h1, h2, h3⟩ := h
      rw [← h0, ← h1, ← h2, ← h3, List.nil_append]
      exact matchHere_sound _ _ _ _ hm
    | none =>
      rw [hm] at h
      cases hf : findMatch r with
      | some q =>
        rw [hf] at h
        obtain ⟨qpre, qg1, qg2, qafter⟩ := q
        simp only [Option.some.injEq, Prod.mk.injEq] at h
        obtain ⟨h0, h1, h2, h3⟩ := h
        rw [← h0, ← h1, ← h2, ← h3]
        have := ih qpre qg1 qg2 qafter hf
        simp [this]
      | none => rw [hf] at h; exact absurd h (by simp)

theorem findMatch_after_lt (s pre g1 g2 after : List Char)
    (h : findMatch s = some (pre, g1, g2, after)) : after.length < s.length := by
  have hs := findMatch_sound s pre g1 g2 after h
  subst hs
  simp only [closeTag, List.length_append, List.length_cons]
  omega

theorem concatTexts_append (a b : List Segment) :
    concatTexts (a ++ b) = concatTexts a ++ concatTexts b := by
  simp [concatTexts]

theorem concatTexts_cons (s : Segment) (l : List Segment) :
    concatTexts (s :: l) = s.text ++ concatTexts l := by
  simp [concatTexts]

theorem plainAll_cons (r : RawSpan) (l : List RawSpan) :
    plainAll (r :: l) = RawSpan.plain r ++ plainAll l := by
  simp [plainAll]

theorem buildSegs_roundtrip :
    ∀ (fuel : Nat) (text : List Char), text.length < fuel →
      ∃ (spans : List RawSpan) (tail : List Char),
        text = encodeAll spans ++ tail ∧
        concatTexts (buildSegs fuel text) = plainAll spans ++ tail := by
  intro fuel
  induction fuel with
  | zero => intro text h; omega
  | succ n ih =>
    intro text h
    cases hm : findMatch text with
    | none =>
      refine ⟨[], text, by simp [encodeAll], ?_⟩
      rw [buildSegs, hm]
      by_cases he : text.isEmpty
      · rw [if_pos he]
        simp only [List.isEmpty_iff] at he
        simp [he, concatTexts, plainAll]
      · rw [if_neg he]
        simp [concatTexts, plainAll]
    | some q =>
      obtain ⟨pre, g1, g2, after⟩ := q
      have hsound := findMatch_sound text pre g1 g2 after hm
      have hlt := findMatch_after_lt text pre g1 g2 after hm
      obtain ⟨spans, tail, henc, hcat⟩ := ih after (by omega)
      refine ⟨⟨pre, g1, g2⟩ :: spans, tail, ?_, ?_⟩
      · rw [hsound, henc]
        simp [encodeAll, RawSpan.encode, List.append_assoc]
      · rw [buildSegs, hm, concatTexts_append]
        have hpre : concatTexts
            (if pre.isEmpty then ([] : List Segment)
             else [⟨defaultProfile.1, defaultProfile.2, pre⟩]) = pre := by
          by_cases he : pre.isEmpty
          · rw [if_pos he]
            simp only [List.isEmpty_iff] at he
            simp [he, concatTexts]
          · rw [if_neg he]; simp [concatTexts]
        rw [hpre, concatTexts_cons, hcat, plainAll_cons]
        simp [RawSpan.plain, List.append_assoc]

example : build_ssml_segments (chars "[ANGRY]stop![/ANGRY]") =
    [⟨"angry", 15, chars "stop!"⟩] := by decide

example : build_ssml_segments (chars "[FOO]hi[/FOO]") =
    [⟨"friendly", 10, chars "hi"⟩] := by decide

example : build_ssml_segments (chars "") = [] := rfl

example : build_ssml_segments (chars "plain text, no tags") =
    [⟨"friendly", 10, chars "plain text, no tags"⟩] := by decide

example : build_ssml_segments (chars "a[X]b[/X]c[joyful]pre\n\nd[/joyful]e") =
    [⟨"friendly", 10, chars "a"⟩, ⟨"friendly", 10, chars "b"⟩,
     ⟨"friendly", 10, chars "c"⟩, ⟨"cheerful", 20, chars "d"⟩,
     ⟨"friendly", 10, chars "e"⟩] := by decide

example : concatTexts (build_ssml_segments (chars "[ANGRY]hi[/ANGRY]")) = chars "hi" := by decide

theorem argmaxFirst_fst_mem (l : List (String × Nat)) :
    (argmaxFirst l).1 = "default" ∨ (argmaxFirst l).1 ∈ l.map Prod.fst := by
  induction l with
  | nil => left; rfl
  | cons p rest ih =>
    rw [argmaxFirst]
    by_cases hgt : (argmaxFirst rest).2 > p.2
    · rw [if_pos hgt]
      rcases ih with h | h
      · left; exact h
      · right; simp [h]
    · rw [if_neg hgt]; right; simp

theorem maxScore_cons (p : String × Nat) (rest : List (String × Nat)) :
    maxScore (p :: rest) = Nat.max p.2 (maxScore rest) := by
  simp [maxScore]

theorem argmaxFirst_snd_eq_maxScore (l : List (String × Nat)) :
    (argmaxFirst l).2 = maxScore l := by
  induction l with
  | nil => rfl
  | cons p rest ih =>
    rw [argmaxFirst, maxScore_cons]
    by_cases hgt : (argmaxFirst rest).2 > p.2
    · rw [if_pos hgt, ih]
      have hle : p.2 ≤ maxScore rest := by rw [← ih]; omega
      exact (Nat.max_eq_right hle).symm
    · rw [if_neg hgt]
      have hle : maxScore rest ≤ p.2 := by rw [← ih]; omega
      exact (Nat.max_eq_left hle).symm

theorem find_max_eq_argmaxFirst (l : List (String × Nat)) (hne : l ≠ []) :
    l.find? (fun p => p.2 == maxScore l) = some (argmaxFirst l) := by
  induction l with
  | nil => exact absurd rfl hne
  | cons p rest ih =>
    by_cases hle : maxScore rest ≤ p.2
    · have hmax : maxScore (p :: rest) = p.2 := by
        rw [maxScore_cons]; exact Nat.max_eq_left hle
      have hbeq : (p.2 == maxScore (p :: rest)) = true := by simp [hmax]
      rw [List.find?_cons, hbeq, argmaxFirst]
      have hng : ¬ ((argmaxFirst rest).2 > p.2) := by
        rw [argmaxFirst_snd_eq_maxScore]; omega
      rw [if_neg hng]
    · push_neg at hle
      have hrne : rest ≠ [] := by
        intro hr; rw [hr] at hle; simp [maxScore] at hle
      have hmax : maxScore (p :: rest) = maxScore rest := by
        rw [maxScore_cons]; exact Nat.max_eq_right (le_of_lt hle)
      have hbeq : (p.2 == maxScore (p :: rest)) = false := by
        simp only [hmax, beq_eq_false_iff_ne, ne_eq]
        omega
      rw [List.find?_cons, hbeq, argmaxFirst]
      have hpos : (argmaxFirst rest).2 > p.2 := by
        rw [argmaxFirst_snd_eq_maxScore]; omega
      rw [if_pos hpos, hmax]
      exact ih hrne

example : analyze_emotion 0 (chars "I am so happy and delighted today") = "cheerful" := by decide

example : analyze_emotion 0 (chars "") = "default" := by decide

example : analyze_emotion (mkRat 3 4) (chars "wonderful, amazing news") = "cheerful" := by decide

example : analyze_emotion 0 (chars "I am sad") = "sad" := by decide

example : analyze_emotion (mkRat (-3) 4) (chars "xyz") = "sad" := by decide

example : analyze_emotion (mkRat 1 4) (chars "xyz") = "friendly" := by decide

example : analyze_emotion 0 (chars "I understand, feel for you friend") = "empathetic" := by decide

example : analyze_emotion 0 (chars "happy but sad, sad") = "sad" := by decide

example : analyze_emotion 0 (chars "happy and sad") = "sad" := by decide

example : detect_emotion_request (chars "Can you speak in a cheerful tone?") = some (chars "cheerful") := by decide

example : detect_emotion_request (chars "switch to angry mode") = some (chars "angry") := by decide

example : detect_emotion_request (chars "make your voice more empathetic") = some (chars "empathetic") := by decide

example : detect_emotion_request (chars "switch to default mode") = none := by decide

example : searchPat pre3 suf3 (chars "switch to default mode") = some (chars "default") := by decide

example : detect_emotion_request (chars "hello") = none := by decide

example : detect_emotion_request (chars "talk angry") = none := by decide

example : detect_emotion_request (chars "speak in an angry tone") = some (chars "angry") := by decide

example :
    handle_user_input ⟨false, false, false, chars "I am sad"⟩ (chars "delightful") (chars "hello") =
      { emotion := chars "delightful", newItems := [(chars "user", chars "hello")],
        speech := [Speech.customBuilt (chars "[DELIGHTFUL]I am sad[/DELIGHTFUL]")],
        modelConsulted := true } := by decide

example :
    handle_user_input ⟨true, true, true, chars ""⟩ (chars "delightful")
      (chars "haha speak in an angry tone") =
      { emotion := chars "delightful", newItems := [], speech := [Speech.native (chars "haha")],
        modelConsulted := false } := by decide

example :
    handle_user_input ⟨false, false, true, chars ""⟩ (chars "delightful")
      (chars "switch to angry mode") =
      { emotion := chars "angry", newItems := [(chars "assistant", ackText (chars "angry"))],
        speech := [Speech.channel (ackText (chars "angry"))], modelConsulted := false } := by decide

example : (speak_ssml ⟨Outcome.raise Exn.other, true, Outcome.ok, Outcome.ok, Outcome.ok⟩).1 =
    Except.ok () := rfl

example : (speak_ssml ⟨Outcome.ok, true, Outcome.raise Exn.importError,
    Outcome.raise Exn.attributeError, Outcome.raise Exn.other⟩).2 =
    [Method.livekit, Method.rtc, Method.localSpeaker] := rfl

theorem detectLoop_eq_findSome (t : List Char) :
    ∀ ps : List (Pat × Pat), detectLoop ps t =
      ps.findSome? (fun p =>
        match searchPat p.1 p.2 t with
        | some w => if valid_emotions.contains w then some w else none
        | none => none) := by
  intro ps
  induction ps with
  | nil => rfl
  | cons p rest ih =>
    rw [detectLoop, List.findSome?_cons]
    cases hs : searchPat p.1 p.2 t with
    | some w =>
      by_cases hv : w ∈ valid_emotions
      · simp [hv]
      · simp [hv, ih]
    | none => simpa using ih

/-- Claim C3 (amended): `detect_emotion_request` returns the captured word of
the first pattern, in the fixed priority order, that matches and whose
captured word is in `valid_emotions` — the 16-label list of the source, which
does not contain `default`; an unrecognized captured word discards that
pattern's match and matching continues; if no pattern yields a recognized
label the result is `none`. -/
theorem detect_eq_first_valid_capture (text : List Char) :
    detect_emotion_request text = detectSpec valid_emotions text := by
  rw [detect_emotion_request, detectSpec]
  exact detectLoop_eq_findSome (text.map Char.toLower) patterns

/-- Claim C3, counterexample to the claim as stated: on
"switch to default mode" pattern 3 matches with captured word `default`,
which belongs to the spec's enumerated EmotionLabel set, so the claim
predicts `some "default"`; the code returns `none` because its
`valid_emotions` list omits `default`. -/
theorem detect_default_counterexample :
    detect_emotion_request (chars "switch to default mode") = none ∧
    detectSpec emotionLabelSetChars (chars "switch to default mode") = some (chars "default") ∧
    (chars "default") ∈ emotionLabelSetChars := by
  refine ⟨by decide, by decide, by decide⟩

/-- Claim C4: `analyze_emotion` is total — for every text and every sentiment
score it returns exactly one label from the spec's enumerated EmotionLabel
set, never a "no match". -/
theorem analyze_emotion_total (compound : ℚ) (text : List Char) :
    analyze_emotion compound text ∈ emotionLabelSet := by
  simp only [analyze_emotion]
  split_ifs with h1 h2 h3 h4
  · rcases argmaxFirst_fst_mem (emotionScores (text.map Char.toLower)) with h | h
    · rw [h]; decide
    · have hfst : (emotionScores (text.map Char.toLower)).map Prod.fst =
          ["angry", "sad", "cheerful", "excited", "empathetic", "friendly",
           "delightful", "joyful"] := by
        simp [emotionScores, emotion_keywords]
      rw [hfst] at h
      simp only [List.mem_cons, List.not_mem_nil, or_false] at h
      rcases h with h | h | h | h | h | h | h | h <;> rw [h] <;> decide
  · decide
  · decide
  · decide
  · decide

/-- Claim C5: whenever some label's whole-word, case-insensitive keyword
count is strictly positive, `analyze_emotion` returns the label of the first
table entry holding the maximum count — i.e. `find?` over the score table
with the maximality predicate finds exactly the returned label, paired with
the maximal count, so ties go to the first-defined label. -/
theorem analyze_emotion_keyword_max (compound : ℚ) (text : List Char)
    (h : 0 < maxScore (emotionScores (text.map Char.toLower))) :
    (emotionScores (text.map Char.toLower)).find?
        (fun p => p.2 == maxScore (emotionScores (text.map Char.toLower))) =
      some (analyze_emotion compound text,
            maxScore (emotionScores (text.map Char.toLower))) := by
  have hne : emotionScores (text.map Char.toLower) ≠ [] := by
    simp [emotionScores, emotion_keywords]
  have hf := find_max_eq_argmaxFirst (emotionScores (text.map Char.toLower)) hne
  have h1 : analyze_emotion compound text =
      (argmaxFirst (emotionScores (text.map Char.toLower))).1 := by
    simp only [analyze_emotion]
    rw [if_pos h]
  have h2 : (argmaxFirst (emotionScores (text.map Char.toLower))).2 =
      maxScore (emotionScores (text.map Char.toLower)) :=
    argmaxFirst_snd_eq_maxScore _
  rw [hf, h1, ← h2]

/-- Witness for C5 at a concrete input: "I am so happy and delighted today"
has two `cheerful` keyword hits (`happy`, `delighted`) and no larger count,
and the classifier returns `cheerful` for every sentiment value. -/
theorem analyze_emotion_keyword_max_witness :
    0 < maxScore (emotionScores ((chars "I am so happy and delighted today").map Char.toLower)) ∧
    (emotionScores ((chars "I am so happy and delighted today").map Char.toLower)).find?
        (fun p => p.2 ==
          maxScore (emotionScores ((chars "I am so happy and delighted today").map Char.toLower))) =
      some (analyze_emotion 0 (chars "I am so happy and delighted today"),
            maxScore (emotionScores ((chars "I am so happy and delighted today").map Char.toLower))) :=
  ⟨by decide, analyze_emotion_keyword_max 0 (chars "I am so happy and delighted today") (by decide)⟩

/-- Claim C6: with all keyword counts zero, the result is determined solely
by the compound polarity: ≥ 1/2 gives `cheerful`, ≤ -1/2 gives `sad`,
positive below 1/2 gives `friendly`, otherwise `default`. -/
theorem analyze_emotion_sentiment_fallback (compound : ℚ) (text : List Char)
    (h : maxScore (emotionScores (text.map Char.toLower)) = 0) :
    analyze_emotion compound text =
      (if mkRat 1 2 ≤ compound then "cheerful"
       else if compound ≤ -(mkRat 1 2) then "sad"
       else if 0 < compound then "friendly"
       else "default") := by
  simp only [analyze_emotion]
  rw [h]
  simp

/-- Witness for C6 at a concrete input: "xyz" has no keyword hits, and a
compound score of 3/4 lands in the cheerful branch. -/
theorem analyze_emotion_sentiment_fallback_witness :
    maxScore (emotionScores ((chars "xyz").map Char.toLower)) = 0 ∧
    analyze_emotion (mkRat 3 4) (chars "xyz") =
      (if mkRat 1 2 ≤ mkRat 3 4 then "cheerful"
       else if mkRat 3 4 ≤ -(mkRat 1 2) then "sad"
       else if 0 < mkRat 3 4 then "friendly"
       else "default") :=
  ⟨by decide, analyze_emotion_sentiment_fallback (mkRat 3 4) (chars "xyz") (by decide)⟩

/-- Claim C1 (amended): concatenating the text content of the emitted
elements, in emission order, reproduces the input with the `[TAG]`/`[/TAG]`
delimiters of each matched span removed and each span's content stripped at
its first double newline — no other text is dropped and none is duplicated:
the input literally decomposes into matched spans plus a tail, and the
emitted text is that same decomposition without delimiters. -/
theorem build_ssml_roundtrip_modulo_delimiters (text : List Char) :
    ∃ (spans : List RawSpan) (tail : List Char),
      text = encodeAll spans ++ tail ∧
      concatTexts (build_ssml_segments text) = plainAll spans ++ tail :=
  buildSegs_roundtrip (text.length + 1) text (by omega)

/-- Claim C1, counterexample to the claim as stated: the input
"[ANGRY]hi[/ANGRY]" contains no double newline, so the claim predicts that
the concatenated text content equals the input exactly; the code drops the
tag delimiters and emits just "hi". -/
theorem build_ssml_roundtrip_counterexample :
    concatTexts (build_ssml_segments (chars "[ANGRY]hi[/ANGRY]")) = chars "hi" ∧
    chars "hi" ≠ chars "[ANGRY]hi[/ANGRY]" :=
  ⟨by decide, by decide⟩

/-- Claim C7 (amended): `build_ssml` on the empty string emits no express-as
element at all (the final `if last_end < len(text)` guard fails at 0 < 0). -/
theorem build_ssml_empty : build_ssml_segments (chars "") = [] := rfl

/-- Claim C7, counterexample to the claim as stated: the claim predicts
exactly one (empty, DEFAULT-styled) element for empty input, but the emitted
element count is 0, not 1. -/
theorem build_ssml_empty_counterexample :
    (build_ssml_segments (chars "")).length = 0 ∧ (0 : Nat) ≠ 1 :=
  ⟨rfl, by decide⟩

/-- Claim C8: a tagged span whose upper-cased tag is absent from
`emotion_to_style` silently receives the DEFAULT profile, and in particular
`build_ssml("[FOO]hi[/FOO]")` emits exactly one element with DEFAULT's style
(`friendly`) and degree (1.0, i.e. 10 tenths) and text "hi". -/
theorem build_ssml_unknown_tag (tag : List Char)
    (h : List.lookup (String.mk (upperChars tag)) emotion_to_style = none) :
    lookupStyle tag = defaultProfile ∧
    build_ssml_segments (chars "[FOO]hi[/FOO]") = [⟨"friendly", 10, chars "hi"⟩] := by
  constructor
  · rw [lookupStyle, h]; rfl
  · decide

/-- Witness for C8: the tag `FOO` is not in the style table. -/
theorem build_ssml_unknown_tag_witness :
    List.lookup (String.mk (upperChars (chars "FOO"))) emotion_to_style = none ∧
    (lookupStyle (chars "FOO") = defaultProfile ∧
     build_ssml_segments (chars "[FOO]hi[/FOO]") = [⟨"friendly", 10, chars "hi"⟩]) :=
  ⟨by decide, build_ssml_unknown_tag (chars "FOO") (by decide)⟩

/-- Claim C2 (amended): in the reply path (no laugh keyword, no explicit
emotion request), the custom-TTS fallback wraps the reply in the session's
current emotion label (upper-cased) — the Emotion Classifier is never
consulted on the reply. -/
theorem reply_tagged_with_current_emotion (env : AgentEnv) (emo input : List Char)
    (h1 : containsLaughWord (pyStrip input) = false)
    (h2 : detect_emotion_request (pyStrip input) = none)
    (h3 : env.usingNativeTTS = false ∨ env.nativeOk = false)
    (h4 : env.dataChannelOk = false) :
    (handle_user_input env emo input).speech =
      [Speech.customBuilt (taggedReply emo (pyStrip env.reply))] := by
  simp only [handle_user_input, h1, h2, Bool.false_eq_true, if_false]
  rcases h3 with h3 | h3
  · simp [replySpeech, h3, h4]
  · cases hn : env.usingNativeTTS with
    | false => simp [replySpeech, hn, h4]
    | true => simp [replySpeech, hn, h3, h4]

/-- Claim C2, counterexample to the claim as stated: with current emotion
`delightful`, no emotion request in "hello" and the custom-TTS path active,
the reply "I am sad" is wrapped in `[DELIGHTFUL]…[/DELIGHTFUL]`, while the
Emotion Classifier labels that reply `sad` (a keyword hit, independent of
the sentiment score); the emitted tag is not the classifier's output. -/
theorem reply_tag_counterexample :
    (handle_user_input ⟨false, false, false, chars "I am sad"⟩ (chars "delightful")
        (chars "hello")).speech =
      [Speech.customBuilt (chars "[DELIGHTFUL]I am sad[/DELIGHTFUL]")] ∧
    analyze_emotion 0 (chars "I am sad") = "sad" ∧
    chars "[DELIGHTFUL]I am sad[/DELIGHTFUL]" ≠
      taggedReply (chars "sad") (chars "I am sad") :=
  ⟨by decide, by decide, by decide⟩

/-- Witness for C2 (amended) at a concrete input. -/
theorem reply_tagged_with_current_emotion_witness :
    (containsLaughWord (pyStrip (chars "hello")) = false ∧
     detect_emotion_request (pyStrip (chars "hello")) = none) ∧
    (handle_user_input ⟨false, false, false, chars "I am sad"⟩ (chars "delightful")
        (chars "hello")).speech =
      [Speech.customBuilt (taggedReply (chars "delightful")
        (pyStrip (chars "I am sad")))] :=
  ⟨⟨by decide, by decide⟩,
   reply_tagged_with_current_emotion ⟨false, false, false, chars "I am sad"⟩
     (chars "delightful") (chars "hello") (by decide) (by decide) (Or.inl rfl) rfl⟩

theorem playChain_trace (env : SpeakEnv) :
    (playChain env).2 = [Method.livekit] ∨
    (playChain env).2 = [Method.livekit, Method.rtc] ∨
    (playChain env).2 = [Method.livekit, Method.rtc, Method.localSpeaker] := by
  rcases hl : env.livekitPlay with _ | e
  · left; simp [playChain, hl, attempt]
  · cases e with
    | other => left; simp [playChain, hl, attempt, isImportOrAttr]
    | importError =>
      rcases hr : env.rtcPlay with _ | e2
      · right; left; simp [playChain, hl, hr, attempt, isImportOrAttr]
      · cases e2 with
        | other => right; left; simp [playChain, hl, hr, attempt, isImportOrAttr]
        | importError => right; right; simp [playChain, hl, hr, attempt, isImportOrAttr]
        | attributeError => right; right; simp [playChain, hl, hr, attempt, isImportOrAttr]
    | attributeError =>
      rcases hr : env.rtcPlay with _ | e2
      · right; left; simp [playChain, hl, hr, attempt, isImportOrAttr]
      · cases e2 with
        | other => right; left; simp [playChain, hl, hr, attempt, isImportOrAttr]
        | importError => right; right; simp [playChain, hl, hr, attempt, isImportOrAttr]
        | attributeError => right; right; simp [playChain, hl, hr, attempt, isImportOrAttr]

theorem speakBody_trace (env : SpeakEnv) :
    (speakBody env).2 = [] ∨ (speakBody env).2 = (playChain env).2 := by
  rcases hs : env.synthesize with _ | e
  · by_cases hc : env.synthCompleted = false
    · left; simp [speakBody, hs, attempt, hc]
    · right; simp [speakBody, hs, attempt, hc]
  · left; simp [speakBody, hs, attempt]

/-- Claim C9: `speak_ssml` always returns normally — the outer handler
swallows every failure (including the final fallback's), and the playback
methods that are attempted always form a prefix of the chain LiveKit audio →
rtc audio → local speaker, in that order. -/
theorem speak_ssml_total (env : SpeakEnv) :
    (speak_ssml env).1 = Except.ok () ∧
    ((speak_ssml env).2 = [] ∨
     (speak_ssml env).2 = [Method.livekit] ∨
     (speak_ssml env).2 = [Method.livekit, Method.rtc] ∨
     (speak_ssml env).2 = [Method.livekit, Method.rtc, Method.localSpeaker]) := by
  have htr : (speak_ssml env).2 = (speakBody env).2 := by
    unfold speak_ssml
    rcases hsb : speakBody env with ⟨r, tr⟩
    cases r <;> rfl
  constructor
  · unfold speak_ssml
    rcases hsb : speakBody env with ⟨r, tr⟩
    cases r <;> rfl
  · rw [htr]
    rcases speakBody_trace env with h | h
    · left; exact h
    · rw [h]
      rcases playChain_trace env with h1 | h1 | h1
      · right; left; exact h1
      · right; right; left; exact h1
      · right; right; right; exact h1

/-- Claim C10: an utterance containing a whole-word laugh keyword makes the
handler short-circuit: the current emotion is unchanged, no conversation item
is created, the conversational model is not consulted, and the single speech
request is the fixed laugh response ("haha" over native TTS or the data
channel, else the raw `[LAUGHING]laugh[/LAUGHING]` span). -/
theorem laugh_short_circuit (env : AgentEnv) (emo input : List Char)
    (h : containsLaughWord (pyStrip input) = true) :
    (handle_user_input env emo input).emotion = emo ∧
    (handle_user_input env emo input).newItems = [] ∧
    (handle_user_input env emo input).modelConsulted = false ∧
    (handle_user_input env emo input).speech = [laughSpeech env] ∧
    (laughSpeech env = Speech.native (chars "haha") ∨
     laughSpeech env = Speech.channel (chars "haha") ∨
     laughSpeech env = Speech.customRaw (chars "[LAUGHING]laugh[/LAUGHING]")) := by
  refine ⟨?_, ?_, ?_, ?_, ?_⟩
  · simp [handle_user_input, h]
  · simp [handle_user_input, h]
  · simp [handle_user_input, h]
  · simp [handle_user_input, h]
  · cases hn : env.usingNativeTTS with
    | true => left; simp [laughSpeech, hn]
    | false =>
      cases hd : env.dataChannelOk with
      | true => right; left; simp [laughSpeech, hn, hd]
      | false => right; right; simp [laughSpeech, hn, hd]

/-- Witness for C10 at a concrete input that even contains an explicit
emotion request ("speak in an angry tone"): the laugh keyword "haha" wins
and the emotion stays `delightful`. -/
theorem laugh_short_circuit_witness :
    containsLaughWord (pyStrip (chars "haha speak in an angry tone")) = true ∧
    ((handle_user_input ⟨true, true, true, chars ""⟩ (chars "delightful")
        (chars "haha speak in an angry tone")).emotion = chars "delightful" ∧
     (handle_user_input ⟨true, true, true, chars ""⟩ (chars "delightful")
        (chars "haha speak in an angry tone")).newItems = [] ∧
     (handle_user_input ⟨true, true, true, chars ""⟩ (chars "delightful")
        (chars "haha speak in an angry tone")).modelConsulted = false ∧
     (handle_user_input ⟨true, true, true, chars ""⟩ (chars "delightful")
        (chars "haha speak in an angry tone")).speech =
       [laughSpeech ⟨true, true, true, chars ""⟩] ∧
     (laughSpeech ⟨true, true, true, chars ""⟩ = Speech.native (chars "haha") ∨
      laughSpeech ⟨true, true, true, chars ""⟩ = Speech.channel (chars "haha") ∨
      laughSpeech ⟨true, true, true, chars ""⟩ =
        Speech.customRaw (chars "[LAUGHING]laugh[/LAUGHING]"))) :=
  ⟨by decide,
   laugh_short_circuit ⟨true, true, true, chars ""⟩ (chars "delightful")
     (chars "haha speak in an angry tone") (by decide)⟩
